import Mathlib

/-!
Verification development for the lvory desktop shell (Electron).

The repository consists of three JavaScript source files:
* a preload bridge (`contextBridge.exposeInMainWorld`) exposing IPC wrappers
  to the sandboxed renderer page,
* a window-management module (window creation, CSP header injection for the
  development environment, minimize/maximize/close handling, size clamping),
* a legacy `ipc-handlers.js` that re-exports `setupIpcHandlers` from the
  modular entry `./ipc-handlers/index`.

The definitions below are a shallow embedding of that code: each bridge
function is embedded as the list of `ipcRenderer` calls it performs, the
window handlers as functions on an explicit window state, and the
event-emitter semantics of `on`/`removeListener` as operations on a listener
list where function objects are identified by identity.
-/

set_option autoImplicit false

namespace Lvory

/-- JavaScript values as they appear in the bridge payloads: `undefined`,
booleans, strings, and plain objects (field lists). -/
inductive JsVal where
  | undef
  | bool (b : Bool)
  | str (s : String)
  | obj (fields : List (String × JsVal))

/-- JavaScript truthiness for the values of `JsVal` (used by the
`if (profileData)` test in the did-finish-load handler). -/
def JsVal.truthy : JsVal → Bool
  | .undef => false
  | .bool b => b
  | .str s => !s.isEmpty
  | .obj _ => true

/-- One call the preload bridge makes on `ipcRenderer`: a fire-and-forget
`send`, a request-response `invoke`, a listener registration `on`, or a
listener removal `removeListener`. The payload of `send`/`invoke` is the
serialized argument (`JsVal.undef` when the source passes no payload). -/
inductive IpcCall where
  | send (channel : String) (payload : JsVal)
  | invoke (channel : String) (payload : JsVal)
  | on (channel : String)
  | removeListener (channel : String)

/-- The channel string of an `ipcRenderer` call. -/
def IpcCall.channel : IpcCall → String
  | .send ch _ => ch
  | .invoke ch _ => ch
  | .on ch => ch
  | .removeListener ch => ch

/-- A bridge function that registers a listener and returns an unsubscriber:
`subscribe` is the list of calls made when the function is invoked,
`unsubscribe` the list of calls the returned closure makes when run. -/
structure Subscription where
  subscribe : List IpcCall
  unsubscribe : List IpcCall

namespace preload

/-- Embeds `minimizeWindow: () => ipcRenderer.send('window-minimize')`. -/
def minimizeWindow : List IpcCall := [.send "window-minimize" .undef]

/-- Embeds `maximizeWindow: () => ipcRenderer.send('window-maximize')`. -/
def maximizeWindow : List IpcCall := [.send "window-maximize" .undef]

/-- Embeds `closeWindow: () => ipcRenderer.send('window-close')`. -/
def closeWindow : List IpcCall := [.send "window-close" .undef]

/-- Embeds `showWindow: () => ipcRenderer.invoke('show-window')`. -/
def showWindow : List IpcCall := [.invoke "show-window" .undef]

/-- Embeds `quitApp: () => ipcRenderer.invoke('quit-app')`. -/
def quitApp : List IpcCall := [.invoke "quit-app" .undef]

/-- Embeds `downloadProfile: (data) => ipcRenderer.invoke('download-profile', data)`. -/
def downloadProfile (data : JsVal) : List IpcCall := [.invoke "download-profile" data]

/-- Embeds `downloadCore: () => ipcRenderer.invoke('download-core')`. -/
def downloadCore : List IpcCall := [.invoke "download-core" .undef]

/-- Embeds `onCoreDownloadProgress`: registers a wrapper on
channel `core-download-progress`, returns an unsubscriber that calls
`removeListener` on the same channel. -/
def onCoreDownloadProgress : Subscription :=
  ⟨[.on "core-download-progress"], [.removeListener "core-download-progress"]⟩

/-- Embeds `onStatusUpdate`: registers on `status-update`, unsubscriber
removes on `status-update`. -/
def onStatusUpdate : Subscription :=
  ⟨[.on "status-update"], [.removeListener "status-update"]⟩

/-- Embeds `openConfigDir: () => ipcRenderer.invoke('openConfigDir')`. -/
def openConfigDir : List IpcCall := [.invoke "openConfigDir" .undef]

namespace singbox

/-- Embeds `checkInstalled: () => ipcRenderer.invoke('singbox-check-installed')`. -/
def checkInstalled : List IpcCall := [.invoke "singbox-check-installed" .undef]

/-- Embeds `getVersion: () => ipcRenderer.invoke('singbox-get-version')`. -/
def getVersion : List IpcCall := [.invoke "singbox-get-version" .undef]

/-- Embeds `checkConfig: (configPath) => ipcRenderer.invoke('singbox-check-config', { configPath })`. -/
def checkConfig (configPath : JsVal) : List IpcCall :=
  [.invoke "singbox-check-config" (.obj [("configPath", configPath)])]

/-- Embeds `formatConfig: (configPath) => ipcRenderer.invoke('singbox-format-config', { configPath })`. -/
def formatConfig (configPath : JsVal) : List IpcCall :=
  [.invoke "singbox-format-config" (.obj [("configPath", configPath)])]

/-- Embeds `startCore: (options) => ipcRenderer.invoke('singbox-start-core', options)`. -/
def startCore (options : JsVal) : List IpcCall := [.invoke "singbox-start-core" options]

/-- Embeds `stopCore: () => ipcRenderer.invoke('singbox-stop-core')`. -/
def stopCore : List IpcCall := [.invoke "singbox-stop-core" .undef]

/-- Embeds `getStatus: () => ipcRenderer.invoke('singbox-get-status')`. -/
def getStatus : List IpcCall := [.invoke "singbox-get-status" .undef]

/-- Embeds `run: (configPath) => ipcRenderer.invoke('singbox-run', { configPath })`. -/
def run (configPath : JsVal) : List IpcCall :=
  [.invoke "singbox-run" (.obj [("configPath", configPath)])]

/-- Embeds `stop: () => ipcRenderer.invoke('singbox-stop')`. -/
def stop : List IpcCall := [.invoke "singbox-stop" .undef]

/-- Embeds `downloadCore: () => ipcRenderer.invoke('singbox-download-core')`. -/
def downloadCore : List IpcCall := [.invoke "singbox-download-core" .undef]

/-- Embeds `singbox.onOutput`: registers on `singbox-output`, unsubscriber
removes on `singbox-output`. -/
def onOutput : Subscription :=
  ⟨[.on "singbox-output"], [.removeListener "singbox-output"]⟩

/-- Embeds `singbox.onExit`: registers on `singbox-exit`, unsubscriber
removes on `singbox-exit`. -/
def onExit : Subscription :=
  ⟨[.on "singbox-exit"], [.removeListener "singbox-exit"]⟩

end singbox

/-- Embeds `getSingBoxVersion: () => ipcRenderer.invoke('singbox-get-version')`. -/
def getSingBoxVersion : List IpcCall := [.invoke "singbox-get-version" .undef]

/-- Embeds `onCoreVersionUpdate`: registers on `core-version-update`,
unsubscriber removes on `core-version-update`. -/
def onCoreVersionUpdate : Subscription :=
  ⟨[.on "core-version-update"], [.removeListener "core-version-update"]⟩

/-- Embeds `onDownloadComplete: (callback) => ipcRenderer.on('download-complete', ...)`. -/
def onDownloadComplete : List IpcCall := [.on "download-complete"]

/-- Embeds `removeDownloadComplete: (callback) => ipcRenderer.removeListener('download-complete', callback)`. -/
def removeDownloadComplete : List IpcCall := [.removeListener "download-complete"]

/-- Embeds `getProfileData: () => ipcRenderer.invoke('get-profile-data')`. -/
def getProfileData : List IpcCall := [.invoke "get-profile-data" .undef]

/-- Embeds `onProfileData: (callback) => ipcRenderer.on('profile-data', ...)`. -/
def onProfileData : List IpcCall := [.on "profile-data"]

/-- Embeds `removeProfileData: (callback) => ipcRenderer.removeListener('profile-data', callback)`. -/
def removeProfileData : List IpcCall := [.removeListener "profile-data"]

/-- Embeds `getProfileFiles: () => ipcRenderer.invoke('getProfileFiles')`. -/
def getProfileFiles : List IpcCall := [.invoke "getProfileFiles" .undef]

/-- Embeds `exportProfile: (fileName) => ipcRenderer.invoke('exportProfile', fileName)`. -/
def exportProfile (fileName : JsVal) : List IpcCall := [.invoke "exportProfile" fileName]

/-- Embeds `renameProfile: (data) => ipcRenderer.invoke('renameProfile', data)`. -/
def renameProfile (data : JsVal) : List IpcCall := [.invoke "renameProfile" data]

/-- Embeds `deleteProfile: (fileName) => ipcRenderer.invoke('deleteProfile', fileName)`. -/
def deleteProfile (fileName : JsVal) : List IpcCall := [.invoke "deleteProfile" fileName]

/-- Embeds `openFileInEditor: (fileName) => ipcRenderer.invoke('openFileInEditor', fileName)`. -/
def openFileInEditor (fileName : JsVal) : List IpcCall := [.invoke "openFileInEditor" fileName]

/-- Embeds `openAddProfileDialog: () => ipcRenderer.send('open-add-profile-dialog')`. -/
def openAddProfileDialog : List IpcCall := [.send "open-add-profile-dialog" .undef]

/-- Embeds `onProfilesChanged`: sends `profiles-changed-listen`, then registers
on `profiles-changed`; the unsubscriber sends `profiles-changed-unlisten` and
removes the listener on `profiles-changed`. -/
def onProfilesChanged : Subscription :=
  ⟨[.send "profiles-changed-listen" .undef, .on "profiles-changed"],
   [.send "profiles-changed-unlisten" .undef, .removeListener "profiles-changed"]⟩

/-- Embeds `getConfigPath: () => ipcRenderer.invoke('get-config-path')`. -/
def getConfigPath : List IpcCall := [.invoke "get-config-path" .undef]

/-- Embeds `setConfigPath: (filePath) => ipcRenderer.invoke('set-config-path', filePath)`. -/
def setConfigPath (filePath : JsVal) : List IpcCall := [.invoke "set-config-path" filePath]

namespace logs

/-- Embeds `logs.onLogMessage`: registers on `log-message`, unsubscriber
removes on `log-message`. -/
def onLogMessage : Subscription :=
  ⟨[.on "log-message"], [.removeListener "log-message"]⟩

/-- Embeds `logs.onActivityLog`: registers on `activity-log`, unsubscriber
removes on `activity-log`. -/
def onActivityLog : Subscription :=
  ⟨[.on "activity-log"], [.removeListener "activity-log"]⟩

/-- Embeds `logs.getLogHistory: () => ipcRenderer.invoke('get-log-history')`. -/
def getLogHistory : List IpcCall := [.invoke "get-log-history" .undef]

/-- Embeds `logs.clearLogs: () => ipcRenderer.invoke('clear-logs')`. -/
def clearLogs : List IpcCall := [.invoke "clear-logs" .undef]

end logs

end preload

/-- Enumeration of every function the preload bridge exposes on
`window.electron` (the non-function `platform` property exposes no IPC call
and is omitted). Nested object members are flattened with their object name
as camel-case qualifier. -/
inductive Api where
  | minimizeWindow | maximizeWindow | closeWindow
  | showWindow | quitApp
  | downloadProfile
  | downloadCore
  | onCoreDownloadProgress | onStatusUpdate
  | openConfigDir
  | singboxCheckInstalled | singboxGetVersion
  | singboxCheckConfig | singboxFormatConfig
  | singboxStartCore | singboxStopCore | singboxGetStatus
  | singboxRun | singboxStop
  | singboxDownloadCore
  | singboxOnOutput | singboxOnExit
  | getSingBoxVersion
  | onCoreVersionUpdate
  | onDownloadComplete | removeDownloadComplete
  | getProfileData
  | onProfileData | removeProfileData
  | getProfileFiles
  | exportProfile | renameProfile | deleteProfile
  | openFileInEditor | openAddProfileDialog
  | onProfilesChanged
  | getConfigPath | setConfigPath
  | logsOnLogMessage | logsOnActivityLog
  | logsGetLogHistory | logsClearLogs
deriving DecidableEq

/-- The `ipcRenderer` calls an exposed function performs when the page
invokes it with argument `v` (functions that take no argument ignore `v`;
subscription functions perform their registration calls). -/
def apiCalls : Api → JsVal → List IpcCall
  | .minimizeWindow, _ => preload.minimizeWindow
  | .maximizeWindow, _ => preload.maximizeWindow
  | .closeWindow, _ => preload.closeWindow
  | .showWindow, _ => preload.showWindow
  | .quitApp, _ => preload.quitApp
  | .downloadProfile, v => preload.downloadProfile v
  | .downloadCore, _ => preload.downloadCore
  | .onCoreDownloadProgress, _ => preload.onCoreDownloadProgress.subscribe
  | .onStatusUpdate, _ => preload.onStatusUpdate.subscribe
  | .openConfigDir, _ => preload.openConfigDir
  | .singboxCheckInstalled, _ => preload.singbox.checkInstalled
  | .singboxGetVersion, _ => preload.singbox.getVersion
  | .singboxCheckConfig, v => preload.singbox.checkConfig v
  | .singboxFormatConfig, v => preload.singbox.formatConfig v
  | .singboxStartCore, v => preload.singbox.startCore v
  | .singboxStopCore, _ => preload.singbox.stopCore
  | .singboxGetStatus, _ => preload.singbox.getStatus
  | .singboxRun, v => preload.singbox.run v
  | .singboxStop, _ => preload.singbox.stop
  | .singboxDownloadCore, _ => preload.singbox.downloadCore
  | .singboxOnOutput, _ => preload.singbox.onOutput.subscribe
  | .singboxOnExit, _ => preload.singbox.onExit.subscribe
  | .getSingBoxVersion, _ => preload.getSingBoxVersion
  | .onCoreVersionUpdate, _ => preload.onCoreVersionUpdate.subscribe
  | .onDownloadComplete, _ => preload.onDownloadComplete
  | .removeDownloadComplete, _ => preload.removeDownloadComplete
  | .getProfileData, _ => preload.getProfileData
  | .onProfileData, _ => preload.onProfileData
  | .removeProfileData, _ => preload.removeProfileData
  | .getProfileFiles, _ => preload.getProfileFiles
  | .exportProfile, v => preload.exportProfile v
  | .renameProfile, v => preload.renameProfile v
  | .deleteProfile, v => preload.deleteProfile v
  | .openFileInEditor, v => preload.openFileInEditor v
  | .openAddProfileDialog, _ => preload.openAddProfileDialog
  | .onProfilesChanged, _ => preload.onProfilesChanged.subscribe
  | .getConfigPath, _ => preload.getConfigPath
  | .setConfigPath, v => preload.setConfigPath v
  | .logsOnLogMessage, _ => preload.logs.onLogMessage.subscribe
  | .logsOnActivityLog, _ => preload.logs.onActivityLog.subscribe
  | .logsGetLogHistory, _ => preload.logs.getLogHistory
  | .logsClearLogs, _ => preload.logs.clearLogs

/-- The `ipcRenderer` calls made by the unsubscriber closure a subscription
function returns (empty for functions that return no unsubscriber). -/
def unsubCalls : Api → List IpcCall
  | .onCoreDownloadProgress => preload.onCoreDownloadProgress.unsubscribe
  | .onStatusUpdate => preload.onStatusUpdate.unsubscribe
  | .singboxOnOutput => preload.singbox.onOutput.unsubscribe
  | .singboxOnExit => preload.singbox.onExit.unsubscribe
  | .onCoreVersionUpdate => preload.onCoreVersionUpdate.unsubscribe
  | .onProfilesChanged => preload.onProfilesChanged.unsubscribe
  | .logsOnLogMessage => preload.logs.onLogMessage.unsubscribe
  | .logsOnActivityLog => preload.logs.onActivityLog.unsubscribe
  | _ => []

/-- The fixed whitelist of channel names: exactly the channel string literals
occurring in the preload bridge source. -/
def whitelistedChannels : List String :=
  [ "window-minimize", "window-maximize", "window-close",
    "show-window", "quit-app",
    "download-profile", "download-core",
    "core-download-progress", "status-update",
    "openConfigDir",
    "singbox-check-installed", "singbox-get-version",
    "singbox-check-config", "singbox-format-config",
    "singbox-start-core", "singbox-stop-core", "singbox-get-status",
    "singbox-run", "singbox-stop", "singbox-download-core",
    "singbox-output", "singbox-exit",
    "core-version-update", "download-complete",
    "get-profile-data", "profile-data",
    "getProfileFiles", "exportProfile", "renameProfile", "deleteProfile",
    "openFileInEditor", "open-add-profile-dialog",
    "profiles-changed-listen", "profiles-changed", "profiles-changed-unlisten",
    "get-config-path", "set-config-path",
    "log-message", "activity-log", "get-log-history", "clear-logs" ]

/-- The channels an exposed function uses, evaluated at the fixed argument
`JsVal.undef`; claim C1 states the channels at every other argument agree
with this list. -/
def apiChannels (a : Api) : List String :=
  (apiCalls a .undef).map IpcCall.channel

/-! Window-management module (source file `unnamed/part_000`). -/

/-- Observable state of a `BrowserWindow` object that is still referenced:
whether `isDestroyed()` holds, and the minimized / maximized / visible flags. -/
structure WinState where
  destroyed : Bool
  minimized : Bool
  maximized : Bool
  visible : Bool
deriving DecidableEq

/-- The `mainWindow` module variable: `none` models the initial `null`. -/
abbrev MainWindow := Option WinState

/-- Embeds the handler of `ipcMain.on('window-minimize', ...)`: when
`mainWindow && !mainWindow.isDestroyed()`, call `mainWindow.minimize()`. -/
def handleWindowMinimize : MainWindow → MainWindow
  | none => none
  | some w => if !w.destroyed then some { w with minimized := true } else some w

/-- Embeds the handler of `ipcMain.on('window-maximize', ...)`: when the
window exists and is not destroyed, unmaximize if maximized, else maximize. -/
def handleWindowMaximize : MainWindow → MainWindow
  | none => none
  | some w =>
    if !w.destroyed then
      if w.maximized then some { w with maximized := false }
      else some { w with maximized := true }
    else some w

/-- Embeds the handler of `ipcMain.on('window-close', ...)`: when the window
exists and is not destroyed, call `mainWindow.hide()` instead of closing. -/
def handleWindowClose : MainWindow → MainWindow
  | none => none
  | some w => if !w.destroyed then some { w with visible := false } else some w

/-- Embeds the handler of `mainWindow.on('close', ...)` together with the
default close behaviour: when `global.isQuitting` is false the handler calls
`event.preventDefault()` and hides the window; otherwise the default close
proceeds and the window is destroyed. Returns the pair
(defaultPrevented, resulting window state). -/
def onCloseEvent (isQuitting : Bool) (w : WinState) : Bool × WinState :=
  if !isQuitting then (true, { w with visible := false })
  else (false, { w with destroyed := true, visible := false })

/-- Events the visible window code reacts to: the three window-control IPC
messages and the window close event. -/
inductive WinEvent where
  | minimizeIpc | maximizeIpc | closeIpc | closeEvt
deriving DecidableEq

/-- One step of the window state machine under a fixed `global.isQuitting`. -/
def winStep (isQuitting : Bool) (s : MainWindow) : WinEvent → MainWindow
  | .minimizeIpc => handleWindowMinimize s
  | .maximizeIpc => handleWindowMaximize s
  | .closeIpc => handleWindowClose s
  | .closeEvt =>
    match s with
    | none => none
    | some w => some (onCloseEvent isQuitting w).2

/-- Run a sequence of window events. -/
def winRun (isQuitting : Bool) (s : MainWindow) (es : List WinEvent) : MainWindow :=
  es.foldl (winStep isQuitting) s

/-- The window object exists and is not destroyed. -/
def windowAlive : MainWindow → Bool
  | none => false
  | some w => !w.destroyed

/-! Window creation options and size clamping (claim C8). -/

/-- The `BrowserWindow` constructor options used by `createWindow`
(the scalar options relevant to geometry and chrome). -/
structure BrowserWindowOptions where
  width : Nat
  height : Nat
  minWidth : Nat
  minHeight : Nat
  resizable : Bool
  frame : Bool
  /-- the `show` option (named `showOpt` because `show` is a Lean keyword) -/
  showOpt : Bool

/-- Embeds the option object passed to `new BrowserWindow({...})`. -/
def mainWindowOptions : BrowserWindowOptions :=
  { width := 1080, height := 780, minWidth := 800, minHeight := 600,
    resizable := true, frame := false, showOpt := false }

/-- Embeds the `mainWindow.setMinimumSize(800, 600)` call. -/
def appliedMinimumSize : Nat × Nat := (800, 600)

/-- Embeds the `will-resize` handler: the resize is prevented exactly when
the proposed bounds are below the minimum in either dimension. -/
def willResizePrevented (newBounds : Nat × Nat) : Bool :=
  newBounds.1 < 800 || newBounds.2 < 600

/-- Embeds the `resize` handler: when the current size is below the minimum
in either dimension, `setSize(max(width, 800), max(height, 600))`. -/
def resizeHandler (size : Nat × Nat) : Nat × Nat :=
  if size.1 < 800 || size.2 < 600 then (max size.1 800, max size.2 600)
  else size

/-! CSP header rewrite (claim C6). -/

/-- Embeds the CSP value array set by the development-mode header rewrite. -/
def developmentCsp : List String :=
  ["script-src \x27self\x27 \x27unsafe-inline\x27 \x27unsafe-eval\x27; style-src \x27self\x27 \x27unsafe-inline\x27"]

/-- Embeds `isDev = process.env.NODE_ENV === 'development'` (the variable is
`none` when unset). -/
def isDev (nodeEnv : Option String) : Bool :=
  decide (nodeEnv = some "development")

/-- Embeds the `onHeadersReceived` callback body: the response headers become
`{...details.responseHeaders, 'Content-Security-Policy': developmentCsp}`.
Headers are modelled as a map from header name to value array. -/
def rewriteResponseHeaders (responseHeaders : String → Option (List String)) :
    String → Option (List String) :=
  fun k =>
    if k = "Content-Security-Policy" then some developmentCsp
    else responseHeaders k

/-- Embeds the conditional installation of the rewrite: the
`onHeadersReceived` hook is registered exactly when `isDev` holds. -/
def installedHeadersRewrite (nodeEnv : Option String) :
    Option ((String → Option (List String)) → String → Option (List String)) :=
  if isDev nodeEnv then some rewriteResponseHeaders else none

/-! Did-finish-load handler (claim C3). -/

/-- Effects of the `did-finish-load` handler: whether `show()` was called,
that `profileManager.scanProfileConfig()` was called, and the messages sent
to the renderer via `webContents.send`. -/
structure FinishLoadResult where
  shown : Bool
  scanCalled : Bool
  sends : List (String × JsVal)

/-- Embeds the `did-finish-load` handler. The return value of the missing
`profileManager.scanProfileConfig()` implementation is abstracted as the
parameter `scanResult`; the handler shows the window when it is not visible,
and sends the scan result on channel `profile-data` exactly when the
JavaScript conditional `if (profileData)` takes its then-branch. -/
def didFinishLoad (isVisible : Bool) (scanResult : JsVal) : FinishLoadResult :=
  { shown := !isVisible
    scanCalled := true
    sends := if scanResult.truthy then [("profile-data", scanResult)] else [] }

/-! Module delegation structure (claim C4). -/

/-- A call the visible shell code makes into a required module. -/
structure ModuleCall where
  site : String
  member : String
  targetModule : String
deriving DecidableEq

/-- Every core-process supervision, config validation or profile persistence
operation the visible code performs, with the module it dispatches to:
`singbox.setMainWindow` in `createWindow`, `profileManager.scanProfileConfig`
in the `did-finish-load` handler, and the `setupIpcHandlers` re-export in
`ipc-handlers.js` that registers all `singbox-*` and profile IPC handlers. -/
def delegatedOperations : List ModuleCall :=
  [ { site := "window module createWindow", member := "setMainWindow",
      targetModule := "../utils/sing-box" },
    { site := "window module did-finish-load handler", member := "scanProfileConfig",
      targetModule := "./profile-manager" },
    { site := "ipc-handlers.js module.exports", member := "setupIpcHandlers",
      targetModule := "./ipc-handlers/index" } ]

/-- Module specifiers required by the window module (its `require` calls). -/
def windowModuleRequires : List String :=
  ["electron", "path", "fs", "../utils/logger", "../utils/sing-box", "./profile-manager"]

/-- Module specifiers required by the legacy `src/main/ipc-handlers.js`. -/
def ipcHandlersLegacyRequires : List String := ["./ipc-handlers/index"]

/-- The three repository-local modules the spec names as absent. -/
def missingModules : List String :=
  ["../utils/sing-box", "./profile-manager", "./ipc-handlers/index"]

/-- Node resolution of the repository-local specifiers relative to the
requiring files under `src/main`. -/
def resolveFromMain : String → String
  | "../utils/sing-box" => "src/utils/sing-box.js"
  | "./profile-manager" => "src/main/profile-manager.js"
  | "./ipc-handlers/index" => "src/main/ipc-handlers/index.js"
  | "../utils/logger" => "src/utils/logger.js"
  | s => s

/-- Resolved paths of the implementation files actually supplied with the
repository: the legacy IPC re-export, the window module, and the preload
bridge. -/
def suppliedImplementationFiles : List String :=
  ["src/main/ipc-handlers.js", "src/main/window.js", "preload.js"]

/-! Event-emitter semantics of `ipcRenderer.on` / `ipcRenderer.removeListener`
(claim C9). JavaScript function objects are compared by identity, modelled by
a numeric id; a registered listener records its own id and the id of the user
callback it invokes when the channel fires. -/

/-- A function registered on a channel: `id` is the identity of the function
object passed to `on`, `target` the identity of the user callback that
function invokes. A callback registered directly would have `target = id`;
the wrapper closures the bridge registers have a fresh `id` distinct from
`target`. -/
structure Listener where
  id : Nat
  target : Nat
deriving DecidableEq

/-- Embeds Node `removeListener`: removes the first registered listener whose
function identity equals the given function, and is a no-op when no
registered listener is that function. -/
def removeListenerFn : List Listener → Nat → List Listener
  | [], _ => []
  | l :: rest, fid => if l.id = fid then rest else l :: removeListenerFn rest fid

/-- Embeds the registration every bridge subscription performs:
`ipcRenderer.on(channel, (event, data) => callback(data))` appends a wrapper
closure with fresh identity `w` that invokes the callback `c`. -/
def subscribeWrapped (st : List Listener) (c w : Nat) : List Listener :=
  st ++ [{ id := w, target := c }]

/-- Embeds the unsubscriber every bridge subscription returns:
`() => ipcRenderer.removeListener(channel, callback)` passes the original
callback `c` — not the wrapper — to `removeListener`. -/
def unsubscribeViaCallback (st : List Listener) (c : Nat) : List Listener :=
  removeListenerFn st c

/-- The user callbacks invoked when a message arrives on the channel: every
registered listener fires and each calls its target callback. -/
def invokedCallbacks (st : List Listener) : List Nat :=
  st.map Listener.target

/-- What a subscription unsubscriber passes to `removeListener`. -/
inductive UnsubTarget where
  | theCallback
  | theWrapper
deriving DecidableEq

/-- A bridge subscription function: its channel and which function object its
unsubscriber passes to `removeListener`. Per the preload source, every one of
the eight passes the original callback. -/
structure BridgeSubscription where
  channel : String
  unsubRemoves : UnsubTarget
deriving DecidableEq

/-- The eight subscription functions of claim C9 with, read off the preload
source, the function object each unsubscriber passes to `removeListener`. -/
def bridgeSubscriptions : List BridgeSubscription :=
  [ { channel := "core-download-progress", unsubRemoves := .theCallback },
    { channel := "status-update", unsubRemoves := .theCallback },
    { channel := "singbox-output", unsubRemoves := .theCallback },
    { channel := "singbox-exit", unsubRemoves := .theCallback },
    { channel := "core-version-update", unsubRemoves := .theCallback },
    { channel := "profiles-changed", unsubRemoves := .theCallback },
    { channel := "log-message", unsubRemoves := .theCallback },
    { channel := "activity-log", unsubRemoves := .theCallback } ]

/-- Running a subscription followed by its unsubscriber on a listener list,
given the callback identity `c` and the fresh wrapper identity `w`. -/
def subscribeThenUnsubscribe (s : BridgeSubscription) (st : List Listener)
    (c w : Nat) : List Listener :=
  match s.unsubRemoves with
  | .theCallback => unsubscribeViaCallback (subscribeWrapped st c w) c
  | .theWrapper => removeListenerFn (subscribeWrapped st c w) w

/-! Supporting lemmas. -/

/-- Node `removeListener` with a function that is not registered is a no-op. -/
theorem removeListenerFn_of_not_mem (st : List Listener) (fid : Nat)
    (h : fid ∉ st.map Listener.id) : removeListenerFn st fid = st := by
  induction st with
  | nil => rfl
  | cons l rest ih =>
    simp only [List.map_cons, List.mem_cons, not_or] at h
    simp [removeListenerFn, Ne.symm h.1, ih h.2]

/-- General form of the unsubscribe defect: when the callback identity is not
itself registered on the channel and differs from the fresh wrapper identity,
running the returned unsubscriber leaves the listener list unchanged and the
callback keeps firing. -/
theorem unsubscribe_leaves_wrapper_registered (st : List Listener) (c w : Nat)
    (hc : c ∉ st.map Listener.id) (hw : w ≠ c) :
    unsubscribeViaCallback (subscribeWrapped st c w) c = subscribeWrapped st c w ∧
    c ∈ invokedCallbacks (subscribeWrapped st c w) := by
  constructor
  · apply removeListenerFn_of_not_mem
    simp only [subscribeWrapped, List.map_append, List.mem_append, not_or]
    exact ⟨hc, by simpa using Ne.symm hw⟩
  · simp [invokedCallbacks, subscribeWrapped]

theorem windowAlive_some (w : WinState) : windowAlive (some w) = !w.destroyed := rfl

/-- One window-machine step with `isQuitting` false keeps the window alive. -/
theorem winStep_preserves_alive (s : MainWindow) (e : WinEvent)
    (h : windowAlive s = true) : windowAlive (winStep false s e) = true := by
  cases s with
  | none => simp [windowAlive] at h
  | some w =>
    have hd : w.destroyed = false := by
      simpa [windowAlive] using h
    cases e with
    | minimizeIpc => simp [winStep, handleWindowMinimize, hd, windowAlive]
    | maximizeIpc =>
      cases hm : w.maximized <;>
        simp [winStep, handleWindowMaximize, hd, hm, windowAlive]
    | closeIpc => simp [winStep, handleWindowClose, hd, windowAlive]
    | closeEvt => simp [winStep, onCloseEvent, windowAlive, hd]

/-- Any event sequence with `isQuitting` false keeps the window alive. -/
theorem winRun_preserves_alive (es : List WinEvent) :
    ∀ s : MainWindow, windowAlive s = true →
      windowAlive (winRun false s es) = true := by
  induction es with
  | nil => intro s h; simpa [winRun] using h
  | cons e rest ih =>
    intro s h
    simpa [winRun] using ih (winStep false s e) (winStep_preserves_alive s e h)

/-- The resize handler never returns a size below the minimum. -/
theorem resizeHandler_ge (s : Nat × Nat) :
    800 ≤ (resizeHandler s).1 ∧ 600 ≤ (resizeHandler s).2 := by
  unfold resizeHandler
  split
  · exact ⟨Nat.le_max_right _ _, Nat.le_max_right _ _⟩
  · next h =>
    simp only [Bool.or_eq_true, decide_eq_true_eq, not_or, Nat.not_lt] at h
    exact ⟨h.1, h.2⟩

/-! Claim theorems. -/

/-- C1: every API the preload bridge exposes communicates only over channel
names from the fixed whitelist; for every exposed function and every argument
value, the channels passed to `ipcRenderer.send`/`invoke`/`on`/
`removeListener` — including those of the returned unsubscriber — are
constants independent of the argument and lie in the whitelist. -/
theorem c1_bridge_channels_constant_and_whitelisted (a : Api) (v : JsVal) :
    (apiCalls a v).map IpcCall.channel = apiChannels a ∧
    ((apiCalls a v ++ unsubCalls a).map IpcCall.channel).all
      (fun ch => whitelistedChannels.contains ch) = true := by
  cases a <;> exact ⟨rfl, rfl⟩

/-- C2: each subprocess-lifecycle operation is relayed on its own dedicated
singbox channel: `checkInstalled` invokes `singbox-check-installed`,
`getVersion` invokes `singbox-get-version`, `startCore` invokes
`singbox-start-core`, `stopCore` invokes `singbox-stop-core`, `getStatus`
invokes `singbox-get-status`, `downloadCore` invokes
`singbox-download-core`, `onOutput` subscribes to `singbox-output`, `onExit`
subscribes to `singbox-exit`, config check and format use their own
`singbox-check-config` and `singbox-format-config`, and these ten channels
are pairwise distinct. -/
theorem c2_singbox_lifecycle_channels :
    preload.singbox.checkInstalled = [.invoke "singbox-check-installed" .undef] ∧
    preload.singbox.getVersion = [.invoke "singbox-get-version" .undef] ∧
    (∀ v, preload.singbox.startCore v = [.invoke "singbox-start-core" v]) ∧
    preload.singbox.stopCore = [.invoke "singbox-stop-core" .undef] ∧
    preload.singbox.getStatus = [.invoke "singbox-get-status" .undef] ∧
    preload.singbox.downloadCore = [.invoke "singbox-download-core" .undef] ∧
    preload.singbox.onOutput.subscribe = [.on "singbox-output"] ∧
    preload.singbox.onExit.subscribe = [.on "singbox-exit"] ∧
    (∀ v, (preload.singbox.checkConfig v).map IpcCall.channel = ["singbox-check-config"]) ∧
    (∀ v, (preload.singbox.formatConfig v).map IpcCall.channel = ["singbox-format-config"]) ∧
    ([ "singbox-check-installed", "singbox-get-version", "singbox-start-core",
       "singbox-stop-core", "singbox-get-status", "singbox-download-core",
       "singbox-output", "singbox-exit", "singbox-check-config",
       "singbox-format-config" ] : List String).Nodup :=
  ⟨rfl, rfl, fun _ => rfl, rfl, rfl, rfl, rfl, rfl,
   fun _ => rfl, fun _ => rfl, by decide⟩

/-- C4: the visible shell implements no core-process supervision, config
validation or profile persistence itself: every such operation dispatches to
one of the three modules required but not supplied — `../utils/sing-box`,
`./profile-manager` and `./ipc-handlers/index` — and the resolved files of
those modules are not among the supplied implementation files. -/
theorem c4_heavy_lifting_delegated_to_missing_modules :
    delegatedOperations.all
      (fun op => missingModules.contains op.targetModule) = true ∧
    missingModules.all
      (fun m => (windowModuleRequires ++ ipcHandlersLegacyRequires).contains m) = true ∧
    missingModules.all
      (fun m => !suppliedImplementationFiles.contains (resolveFromMain m)) = true := by
  decide

/-- C8: the window size never drops below 800 by 600: the constructor options
set `minWidth` 800 and `minHeight` 600, `setMinimumSize(800, 600)` is
applied, a `will-resize` to bounds below the minimum in either dimension is
prevented exactly then, and the `resize` handler always leaves a width of at
least 800 and a height of at least 600. -/
theorem c8_minimum_size_invariant (b s : Nat × Nat) :
    mainWindowOptions.minWidth = 800 ∧
    mainWindowOptions.minHeight = 600 ∧
    appliedMinimumSize = (800, 600) ∧
    (willResizePrevented b = true ↔ (b.1 < 800 ∨ b.2 < 600)) ∧
    800 ≤ (resizeHandler s).1 ∧ 600 ≤ (resizeHandler s).2 := by
  refine ⟨rfl, rfl, rfl, ?_, resizeHandler_ge s⟩
  simp [willResizePrevented]

/-- C3: every profile-file management capability is reachable from the UI:
the `did-finish-load` handler calls `scanProfileConfig` and sends its result
on `profile-data` exactly when that result is truthy; `renameProfile`,
`deleteProfile` and `exportProfile` invoke their equally named channels; and
`onProfilesChanged` subscribes to `profiles-changed`, sending
`profiles-changed-listen` on subscribe and `profiles-changed-unlisten` when
the returned unsubscriber runs. -/
theorem c3_profile_management_reachable (isVisible : Bool) (r v : JsVal) :
    (didFinishLoad isVisible r).scanCalled = true ∧
    (didFinishLoad isVisible r).sends =
      (if r.truthy then [("profile-data", r)] else []) ∧
    (("profile-data", r) ∈ (didFinishLoad isVisible r).sends ↔ r.truthy = true) ∧
    preload.renameProfile v = [.invoke "renameProfile" v] ∧
    preload.deleteProfile v = [.invoke "deleteProfile" v] ∧
    preload.exportProfile v = [.invoke "exportProfile" v] ∧
    preload.onProfilesChanged.subscribe =
      [.send "profiles-changed-listen" .undef, .on "profiles-changed"] ∧
    preload.onProfilesChanged.unsubscribe =
      [.send "profiles-changed-unlisten" .undef, .removeListener "profiles-changed"] := by
  refine ⟨rfl, rfl, ?_, rfl, rfl, rfl, rfl, rfl⟩
  cases h : r.truthy <;> simp [didFinishLoad, h]

/-- C5: window-control clicks are relayed to handlers acting on the main
window: with the window alive, `window-minimize` minimizes it and
`window-maximize` toggles its maximized state; with the window null or
destroyed, both messages are no-ops. -/
theorem c5_window_control_relay (w : WinState) :
    (w.destroyed = false →
      handleWindowMinimize (some w) = some { w with minimized := true } ∧
      handleWindowMaximize (some w) = some { w with maximized := !w.maximized }) ∧
    (w.destroyed = true →
      handleWindowMinimize (some w) = some w ∧
      handleWindowMaximize (some w) = some w) ∧
    handleWindowMinimize none = none ∧
    handleWindowMaximize none = none := by
  refine ⟨fun h => ⟨?_, ?_⟩, fun h => ⟨?_, ?_⟩, rfl, rfl⟩
  · simp [handleWindowMinimize, h]
  · cases hm : w.maximized <;> simp [handleWindowMaximize, h, hm]
  · simp [handleWindowMinimize, h]
  · simp [handleWindowMaximize, h]

theorem c5_window_control_relay_witness :
    handleWindowMinimize
        (some { destroyed := false, minimized := false, maximized := false, visible := true }) =
      some { destroyed := false, minimized := true, maximized := false, visible := true } ∧
    handleWindowMaximize
        (some { destroyed := false, minimized := false, maximized := false, visible := true }) =
      some { destroyed := false, minimized := false, maximized := true, visible := true } :=
  (c5_window_control_relay
    { destroyed := false, minimized := false, maximized := false, visible := true }).1 rfl

/-- C6: the development-mode header rewrite returns the original response
headers with only the Content-Security-Policy entry added or replaced —
every other header is unchanged — and the rewrite is installed exactly when
NODE_ENV is the string development. -/
theorem c6_csp_rewrite_only_replaces_csp
    (responseHeaders : String → Option (List String)) (k : String)
    (nodeEnv : Option String) :
    (k ≠ "Content-Security-Policy" →
      rewriteResponseHeaders responseHeaders k = responseHeaders k) ∧
    rewriteResponseHeaders responseHeaders "Content-Security-Policy" =
      some developmentCsp ∧
    ((installedHeadersRewrite nodeEnv).isSome = true ↔
      nodeEnv = some "development") ∧
    installedHeadersRewrite (some "development") = some rewriteResponseHeaders := by
  refine ⟨fun h => ?_, rfl, ?_, rfl⟩
  · simp [rewriteResponseHeaders, h]
  · cases nodeEnv with
    | none => simp [installedHeadersRewrite, isDev]
    | some s =>
      by_cases hs : s = "development" <;>
        simp [installedHeadersRewrite, isDev, hs]

theorem c6_csp_rewrite_only_replaces_csp_witness :
    rewriteResponseHeaders (fun _ => none) "X-Frame-Options" = none ∧
    rewriteResponseHeaders (fun _ => none) "Content-Security-Policy" =
      some developmentCsp :=
  ⟨(c6_csp_rewrite_only_replaces_csp (fun _ => none) "X-Frame-Options" none).1
      (by decide),
   (c6_csp_rewrite_only_replaces_csp (fun _ => none) "X-Frame-Options" none).2.1⟩

/-- C7: while `global.isQuitting` is false a close request never destroys the
main window: the `window-close` message hides the window, the close event has
its default prevented and hides the window, and along every event sequence
the window stays alive. -/
theorem c7_close_never_destroys (w : WinState) (es : List WinEvent)
    (h : w.destroyed = false) :
    handleWindowClose (some w) = some { w with visible := false } ∧
    (onCloseEvent false w).1 = true ∧
    (onCloseEvent false w).2 = { w with visible := false } ∧
    windowAlive (winRun false (some w) es) = true := by
  refine ⟨by simp [handleWindowClose, h], rfl, rfl, ?_⟩
  exact winRun_preserves_alive es (some w) (by simp [windowAlive, h])

theorem c7_close_never_destroys_witness :
    windowAlive (winRun false
      (some { destroyed := false, minimized := false, maximized := false, visible := true })
      [WinEvent.closeIpc, WinEvent.closeEvt, WinEvent.maximizeIpc, WinEvent.closeEvt]) = true :=
  (c7_close_never_destroys
    { destroyed := false, minimized := false, maximized := false, visible := true }
    [WinEvent.closeIpc, WinEvent.closeEvt, WinEvent.maximizeIpc, WinEvent.closeEvt]
    rfl).2.2.2

/-- C9 fails on the code: every one of the eight subscription functions
passes the original callback — not the wrapper closure it registered — to
`removeListener`, so on an empty listener list with callback identity 0 and
fresh wrapper identity 1, subscribing and then running the returned
unsubscriber leaves the wrapper registered (the listener set is not restored
to empty) and the callback is still invoked on the next message. -/
theorem c9_unsubscriber_leaves_listener_registered :
    bridgeSubscriptions.all
      (fun s => decide (s.unsubRemoves = UnsubTarget.theCallback)) = true ∧
    bridgeSubscriptions.all (fun s =>
      decide (subscribeThenUnsubscribe s [] 0 1 = subscribeWrapped [] 0 1 ∧
              subscribeThenUnsubscribe s [] 0 1 ≠ [] ∧
              invokedCallbacks (subscribeThenUnsubscribe s [] 0 1) = [0])) = true := by
  decide

end Lvory





